import Mathlib

/-
Verification development for the kenno-api repository.

The repository is a small HTTP backend around a password-reset flow backed
by a remote row store (HubDB).  We shallowly embed:

* the checksum function `hashPassword` duplicated across
  `src/server.js`, `src/api/index.ts`, `src/unnamed/part_000`,
  `src/unnamed/part_001` (all render `Math.abs(hash).toString(16)`) and
  `src/api/auth/reset-password.js` (which renders `hash.toString()`,
  i.e. signed decimal);
* the store-backed request handlers as pure functions over an explicit
  store (a list of user rows) and an environment recording whether the
  remote lookup / write calls fail, returning the HTTP status, the store
  after the request, and the trace of store operations attempted.

JS machine semantics captured here: `(hash << 5) - hash + char` with
`hash = hash & hash` keeps the accumulator a 32-bit signed integer
(`toInt32` below); `charCodeAt` iteration is modelled as iteration over
the string's characters' code points (the repository's data is ASCII, so
UTF-16 units and code points coincide); JS `!x` on a destructured string
field is false exactly when the field is absent or the empty string
(`jtruthy` below).
-/

set_option maxRecDepth 8192

namespace Kenno

/-- Reduction of an integer into the 32-bit signed range, as performed by
JavaScript's `hash & hash` (ToInt32). -/
def toInt32 (x : Int) : Int := (x + 2 ^ 31) % 2 ^ 32 - 2 ^ 31

/-- One loop iteration of the source's hash:
`hash = (hash << 5) - hash + char; hash = hash & hash`.
`hash << 5` itself truncates the product to 32 bits. -/
def hashStep (h : Int) (c : Nat) : Int := toInt32 (toInt32 (h * 32) - h + c)

/-- The final 32-bit signed accumulator of `hashPassword` for a string. -/
def hashAcc (s : String) : Int :=
  s.data.foldl (fun h ch => hashStep h ch.toNat) 0

/-- `hashPassword` as in `src/server.js`, `src/api/index.ts`,
`src/unnamed/part_000` and `src/unnamed/part_001`:
`Math.abs(hash).toString(16)` — absolute value rendered in lowercase
base 16. -/
def hashPassword (s : String) : String :=
  (Nat.toDigits 16 (hashAcc s).natAbs).asString

/-- `hashPassword` as in `src/api/auth/reset-password.js`:
`hash.toString()` — the signed accumulator rendered in base 10
(no absolute value is taken at this call site). -/
def hashPasswordDec (s : String) : String := toString (hashAcc s)

example : hashAcc "a" = 97 := by decide
example : hashAcc "oldpassword123" = -478085840 := by decide
example : hashPassword "oldpassword123" = "1c7f02d0" := by decide
example : hashPasswordDec "oldpassword123" = "-478085840" := by decide
example : hashPassword "newpassword123" = "e3d4c17" := by decide
example : hashPassword "" = "0" := by decide

/-- A user row of the HubDB table, as the handlers project it
(`{ id, email, password, name }`). -/
structure User where
  id : Nat
  email : String
  password : String
  name : String
deriving DecidableEq, Repr

/-- A store operation attempted by a handler: a row lookup by email, or a
patch of a row's password field. -/
inductive StoreOp where
  | lookup (email : String)
  | write (rowId : Nat) (value : String)
deriving DecidableEq, Repr

/-- Result of one handled request: the HTTP status code sent, the store
after the request, and the trace of store operations the handler attempted
(in order). -/
structure HResult where
  status : Nat
  store : List User
  ops : List StoreOp
deriving DecidableEq, Repr

/-- The remote-store environment of one request: whether the HTTP call
behind the lookup fails, and whether the call behind the row patch
fails. -/
structure Env where
  lookupFails : Bool
  writeFails : Bool
deriving DecidableEq, Repr

/-- The row the remote query for an email returns (`results[0]`). -/
def findByEmail (store : List User) (email : String) : Option User :=
  store.find? (fun u => u.email == email)

/-- Effect on the table of a successful patch of a row's password field. -/
def writeRow (store : List User) (rowId : Nat) (value : String) : List User :=
  store.map (fun u => if u.id = rowId then { u with password := value } else u)

/-- `getUserByEmail` of the serverless handlers (`src/unnamed/part_000`,
`src/unnamed/part_001`, `src/api/auth/reset-password.js`): the whole
lookup is wrapped in try/catch and an error returns `null`, so a failed
remote call is indistinguishable from a missing user. -/
def getUserByEmailSl (env : Env) (store : List User) (email : String) : Option User :=
  if env.lookupFails then none else findByEmail store email

/-- JS truthiness of a destructured request-body string field: false for a
missing field (`undefined`) and for the empty string. -/
def jtruthy : Option String → Bool
  | none => false
  | some s => s != ""

/-- Body of the login request (`src/unnamed/part_000`). -/
structure LoginBody where
  email : Option String
  password : Option String
deriving DecidableEq, Repr

/-- Body of a reset-password request (`email`, `oldPassword`,
`newPassword`); `src/api/auth/reset-password.js` reads only `email` and
`newPassword` of it. -/
structure ResetBody where
  email : Option String
  oldPassword : Option String
  newPassword : Option String
deriving DecidableEq, Repr

/-- Body of a change-password request (`email`, `currentPassword`,
`newPassword`). -/
structure ChangeBody where
  email : Option String
  currentPassword : Option String
  newPassword : Option String
deriving DecidableEq, Repr

/-- The login handler of `src/unnamed/part_000` (POST branch).  Verifies
the presented password against the stored value, hashed comparison first;
on a plaintext match it attempts a best-effort write-back of the digest
(its own try/catch swallows a patch failure and the login still
succeeds). -/
def loginHandler (env : Env) (store : List User) (b : LoginBody) : HResult :=
  if !(jtruthy b.email && jtruthy b.password) then
    ⟨400, store, []⟩
  else
    let email := b.email.getD ""
    let password := b.password.getD ""
    match getUserByEmailSl env store email with
    | none => ⟨401, store, [.lookup email]⟩
    | some user =>
      let hashedPassword := hashPassword password
      if user.password ≠ hashedPassword then
        if user.password ≠ password then
          ⟨401, store, [.lookup email]⟩
        else
          -- plain-text match: convert to hash; continue even if the patch fails
          if env.writeFails then
            ⟨200, store, [.lookup email, .write user.id hashedPassword]⟩
          else
            ⟨200, writeRow store user.id hashedPassword,
              [.lookup email, .write user.id hashedPassword]⟩
      else
        ⟨200, store, [.lookup email]⟩

/-- The reset handler of `src/unnamed/part_001` (POST branch).  Requires
the three fields (no length check on `newPassword`), looks up the user
(404 when absent), verifies the old password hashed-first with the
early-return `if (p !== hashedOld) { if (p !== old) return 400 }`
compiled to its conjunction, then writes the digest of the new password
(`updateUser` returns false on a patch failure, surfaced as 500). -/
def resetHandlerSl (env : Env) (store : List User) (b : ResetBody) : HResult :=
  if !(jtruthy b.email && jtruthy b.oldPassword && jtruthy b.newPassword) then
    ⟨400, store, []⟩
  else
    let email := b.email.getD ""
    let oldPassword := b.oldPassword.getD ""
    let newPassword := b.newPassword.getD ""
    match getUserByEmailSl env store email with
    | none => ⟨404, store, [.lookup email]⟩
    | some user =>
      let hashedOld := hashPassword oldPassword
      if user.password ≠ hashedOld ∧ user.password ≠ oldPassword then
        ⟨400, store, [.lookup email]⟩
      else
        let hashed := hashPassword newPassword
        if env.writeFails then
          ⟨500, store, [.lookup email, .write user.id hashed]⟩
        else
          ⟨200, writeRow store user.id hashed,
            [.lookup email, .write user.id hashed]⟩

/-- The handler of `src/api/auth/reset-password.js` (POST branch).  Reads
only `email` and `newPassword`, performs no credential verification and
no length check, and writes the *decimal* digest of the new password. -/
def resetHandlerDec (env : Env) (store : List User) (b : ResetBody) : HResult :=
  if !(jtruthy b.email && jtruthy b.newPassword) then
    ⟨400, store, []⟩
  else
    let email := b.email.getD ""
    let newPassword := b.newPassword.getD ""
    match getUserByEmailSl env store email with
    | none => ⟨404, store, [.lookup email]⟩
    | some user =>
      let hashed := hashPasswordDec newPassword
      if env.writeFails then
        ⟨500, store, [.lookup email, .write user.id hashed]⟩
      else
        ⟨200, writeRow store user.id hashed,
          [.lookup email, .write user.id hashed]⟩

/-- The POST `/api/auth/reset-password` handler of `src/api/index.ts`.
Its `getUserByEmail`/`updateUser` rethrow on a failed remote call, so the
handler's try/catch turns those into 500; a missing user yields status
400 (`res.status(400).json({ error: "User not found" })`). -/
def resetHandlerTs (env : Env) (store : List User) (b : ResetBody) : HResult :=
  if !(jtruthy b.email && jtruthy b.oldPassword && jtruthy b.newPassword) then
    ⟨400, store, []⟩
  else if (b.newPassword.getD "").length < 8 then
    ⟨400, store, []⟩
  else
    let email := b.email.getD ""
    let oldPassword := b.oldPassword.getD ""
    let newPassword := b.newPassword.getD ""
    if env.lookupFails then
      ⟨500, store, [.lookup email]⟩
    else
      match findByEmail store email with
      | none => ⟨400, store, [.lookup email]⟩
      | some user =>
        let hashedOld := hashPassword oldPassword
        if user.password ≠ hashedOld ∧ user.password ≠ oldPassword then
          ⟨400, store, [.lookup email]⟩
        else
          let hashedNew := hashPassword newPassword
          if env.writeFails then
            ⟨500, store, [.lookup email, .write user.id hashedNew]⟩
          else
            ⟨200, writeRow store user.id hashedNew,
              [.lookup email, .write user.id hashedNew]⟩

/-- The POST `/api/auth/change-password` handler of `src/api/index.ts`;
identical to the reset handler up to the `currentPassword` field name. -/
def changeHandlerTs (env : Env) (store : List User) (b : ChangeBody) : HResult :=
  if !(jtruthy b.email && jtruthy b.currentPassword && jtruthy b.newPassword) then
    ⟨400, store, []⟩
  else if (b.newPassword.getD "").length < 8 then
    ⟨400, store, []⟩
  else
    let email := b.email.getD ""
    let currentPassword := b.currentPassword.getD ""
    let newPassword := b.newPassword.getD ""
    if env.lookupFails then
      ⟨500, store, [.lookup email]⟩
    else
      match findByEmail store email with
      | none => ⟨400, store, [.lookup email]⟩
      | some user =>
        let hashedCurrent := hashPassword currentPassword
        if user.password ≠ hashedCurrent ∧ user.password ≠ currentPassword then
          ⟨400, store, [.lookup email]⟩
        else
          let hashedNew := hashPassword newPassword
          if env.writeFails then
            ⟨500, store, [.lookup email, .write user.id hashedNew]⟩
          else
            ⟨200, writeRow store user.id hashedNew,
              [.lookup email, .write user.id hashedNew]⟩

/-- The POST `/api/auth/reset-password` handler of `src/server.js`: after
validation it only compares the request against the simulated test user
(`test@example.com` / `oldpassword123`); it makes no store call and
leaves the store untouched (the store argument appears only so that this
is observable in the result). -/
def resetHandlerSrv (store : List User) (b : ResetBody) : HResult :=
  if !(jtruthy b.email && jtruthy b.oldPassword && jtruthy b.newPassword) then
    ⟨400, store, []⟩
  else if (b.newPassword.getD "").length < 8 then
    ⟨400, store, []⟩
  else if b.email.getD "" = "test@example.com" ∧ b.oldPassword.getD "" = "oldpassword123" then
    ⟨200, store, []⟩
  else
    ⟨400, store, []⟩

/-- The POST `/api/auth/change-password` handler of `src/server.js`;
identical to its reset handler up to the `currentPassword` field name. -/
def changeHandlerSrv (store : List User) (b : ChangeBody) : HResult :=
  if !(jtruthy b.email && jtruthy b.currentPassword && jtruthy b.newPassword) then
    ⟨400, store, []⟩
  else if (b.newPassword.getD "").length < 8 then
    ⟨400, store, []⟩
  else if b.email.getD "" = "test@example.com" ∧ b.currentPassword.getD "" = "oldpassword123" then
    ⟨200, store, []⟩
  else
    ⟨400, store, []⟩

/-- Outcome of one credential verification (§3 of the spec). -/
inductive VerificationOutcome where
  | rejected
  | acceptedHashed
  | acceptedPlaintextNeedsUpgrade
deriving DecidableEq, Repr

/-- The credential verifier, following the spec's §4.2 algorithm word for
word (compute the digest, hashed comparison first, then plaintext, else
reject); the handler embeddings above carry the comparison inline, and
the refinement theorems relate them to this definition. -/
def verify (storedValue presented : String) : VerificationOutcome :=
  if storedValue = hashPassword presented then .acceptedHashed
  else if storedValue = presented then .acceptedPlaintextNeedsUpgrade
  else .rejected

/-! Helper lemmas shared by the claim theorems. -/

theorem verify_eq_acceptedHashed_iff (s p : String) :
    verify s p = .acceptedHashed ↔ s = hashPassword p := by
  unfold verify; split_ifs with h1 h2 <;> simp_all

theorem verify_eq_plain_iff (s p : String) :
    verify s p = .acceptedPlaintextNeedsUpgrade ↔ s ≠ hashPassword p ∧ s = p := by
  unfold verify; split_ifs with h1 h2 <;> simp_all

theorem verify_eq_rejected_iff (s p : String) :
    verify s p = .rejected ↔ s ≠ hashPassword p ∧ s ≠ p := by
  unfold verify; split_ifs with h1 h2 <;> simp_all

theorem toInt32_range (x : Int) : -2 ^ 31 ≤ toInt32 x ∧ toInt32 x < 2 ^ 31 := by
  unfold toInt32
  have h0 : (0 : Int) ≤ (x + 2 ^ 31) % 2 ^ 32 :=
    Int.emod_nonneg _ (by norm_num)
  have h1 : (x + 2 ^ 31) % 2 ^ 32 < 2 ^ 32 :=
    Int.emod_lt_of_pos _ (by norm_num)
  have hp : (2 : Int) ^ 32 = 2 ^ 31 + 2 ^ 31 := by norm_num
  constructor <;> linarith

theorem foldl_hashStep_range (l : List Char) (h : Int)
    (hh : -2 ^ 31 ≤ h ∧ h < 2 ^ 31) :
    -2 ^ 31 ≤ l.foldl (fun h ch => hashStep h ch.toNat) h ∧
      l.foldl (fun h ch => hashStep h ch.toNat) h < 2 ^ 31 := by
  induction l generalizing h with
  | nil => exact hh
  | cons c l ih => exact ih _ (toInt32_range _)

theorem hashAcc_range (s : String) : -2 ^ 31 ≤ hashAcc s ∧ hashAcc s < 2 ^ 31 :=
  foldl_hashStep_range s.data 0 (by norm_num)

theorem digitChar_ne_minus (n : Nat) : Nat.digitChar n ≠ '-' := by
  by_cases h : n < 16
  · have hsmall : ∀ m, m < 16 → Nat.digitChar m ≠ '-' := by decide
    exact hsmall n h
  · have h0 : n ≠ 0 := by omega
    have h1 : n ≠ 1 := by omega
    have h2 : n ≠ 2 := by omega
    have h3 : n ≠ 3 := by omega
    have h4 : n ≠ 4 := by omega
    have h5 : n ≠ 5 := by omega
    have h6 : n ≠ 6 := by omega
    have h7 : n ≠ 7 := by omega
    have h8 : n ≠ 8 := by omega
    have h9 : n ≠ 9 := by omega
    have h10 : n ≠ 10 := by omega
    have h11 : n ≠ 11 := by omega
    have h12 : n ≠ 12 := by omega
    have h13 : n ≠ 13 := by omega
    have h14 : n ≠ 14 := by omega
    have h15 : n ≠ 15 := by omega
    unfold Nat.digitChar
    rw [if_neg h0, if_neg h1, if_neg h2, if_neg h3, if_neg h4, if_neg h5,
      if_neg h6, if_neg h7, if_neg h8, if_neg h9, if_neg h10, if_neg h11,
      if_neg h12, if_neg h13, if_neg h14, if_neg h15]
    decide

theorem toDigitsCore_ne_minus (b : Nat) (fuel : Nat) :
    ∀ (n : Nat) (acc : List Char), (∀ c ∈ acc, c ≠ '-') →
      ∀ c ∈ Nat.toDigitsCore b fuel n acc, c ≠ '-' := by
  induction fuel with
  | zero =>
    intro n acc hacc c hc
    exact hacc c hc
  | succ fuel ih =>
    intro n acc hacc c hc
    simp only [Nat.toDigitsCore] at hc
    by_cases h : n / b = 0
    · rw [if_pos h] at hc
      rcases List.mem_cons.mp hc with h1 | h1
      · exact h1 ▸ digitChar_ne_minus _
      · exact hacc c h1
    · rw [if_neg h] at hc
      refine ih _ _ ?_ c hc
      intro c' hc'
      rcases List.mem_cons.mp hc' with h1 | h1
      · exact h1 ▸ digitChar_ne_minus _
      · exact hacc c' h1

theorem hashPassword_no_minus (s : String) : '-' ∉ (hashPassword s).data := by
  intro hmem
  exact toDigitsCore_ne_minus 16 ((hashAcc s).natAbs + 1) (hashAcc s).natAbs []
    (by intro c hc; cases hc) '-' hmem rfl

theorem hashPasswordDec_neg (s : String) (h : hashAcc s < 0) :
    ∃ t, hashPasswordDec s = "-" ++ t := by
  unfold hashPasswordDec
  cases hv : hashAcc s with
  | ofNat n => exfalso; rw [hv, Int.ofNat_eq_natCast] at h; omega
  | negSucc n => exact ⟨toString (n + 1), rfl⟩

theorem writeRow_password (store : List User) (rid : Nat) (v : String) :
    ∀ u ∈ writeRow store rid v, u.id = rid → u.password = v := by
  intro u hu hid
  unfold writeRow at hu
  rcases List.mem_map.mp hu with ⟨w, hw, rfl⟩
  by_cases h : w.id = rid
  · simp [h]
  · simp only [if_neg h] at hid ⊢
    exact absurd hid h

/-! Sample fixtures used by the witnesses and counterexamples. -/

/-- A store holding one legacy row whose password is still plain text. -/
def samplePlainStore : List User :=
  [⟨1, "test@example.com", "oldpassword123", "tester"⟩]

/-- A store holding one row whose password is already the hex digest. -/
def sampleHashedStore : List User :=
  [⟨1, "test@example.com", hashPassword "oldpassword123", "tester"⟩]

/-- A well-formed reset body (new password of length 14). -/
def sampleResetBody : ResetBody :=
  ⟨some "test@example.com", some "oldpassword123", some "newpassword123"⟩

/-- A reset body whose new password has only 7 characters. -/
def shortResetBody : ResetBody :=
  ⟨some "test@example.com", some "oldpassword123", some "short12"⟩

/-- A reset body presenting a wrong old password. -/
def wrongResetBody : ResetBody :=
  ⟨some "test@example.com", some "wrong", some "newpassword123"⟩

/-- A login body matching the legacy plain-text row. -/
def sampleLoginBody : LoginBody :=
  ⟨some "test@example.com", some "oldpassword123"⟩

/-- C1: for every stored value s and presented password p, verify computes
the digest of p and accepts via the hashed comparison first, then the
plaintext comparison, else rejects; and each store-backed handler that
verifies a credential (the login handler of part_000, the reset handler
of part_001, and the reset/change handlers of api/index.ts) attempts the
hashed comparison before the plaintext one: its behavior on a found user
is exactly what the verify outcome dictates, and in particular a hashed
match accepts without any plaintext-upgrade write. -/
theorem c1_hashed_comparison_first :
    (∀ s p, verify s p = .acceptedHashed ↔ s = hashPassword p)
  ∧ (∀ s p, verify s p = .acceptedPlaintextNeedsUpgrade ↔ s ≠ hashPassword p ∧ s = p)
  ∧ (∀ s p, verify s p = .rejected ↔ s ≠ hashPassword p ∧ s ≠ p)
  ∧ (∀ (env : Env) (store : List User) (b : LoginBody) (u : User),
      jtruthy b.email = true → jtruthy b.password = true →
      getUserByEmailSl env store (b.email.getD "") = some u →
      (verify u.password (b.password.getD "") = .rejected →
        loginHandler env store b = ⟨401, store, [.lookup (b.email.getD "")]⟩)
      ∧ (verify u.password (b.password.getD "") = .acceptedHashed →
        loginHandler env store b = ⟨200, store, [.lookup (b.email.getD "")]⟩)
      ∧ (verify u.password (b.password.getD "") = .acceptedPlaintextNeedsUpgrade →
        (loginHandler env store b).status = 200 ∧
        (loginHandler env store b).ops =
          [.lookup (b.email.getD ""), .write u.id (hashPassword (b.password.getD ""))]))
  ∧ (∀ (env : Env) (store : List User) (b : ResetBody) (u : User),
      jtruthy b.email = true → jtruthy b.oldPassword = true → jtruthy b.newPassword = true →
      getUserByEmailSl env store (b.email.getD "") = some u →
      (verify u.password (b.oldPassword.getD "") = .rejected →
        resetHandlerSl env store b = ⟨400, store, [.lookup (b.email.getD "")]⟩)
      ∧ (verify u.password (b.oldPassword.getD "") ≠ .rejected →
        (resetHandlerSl env store b).ops =
          [.lookup (b.email.getD ""), .write u.id (hashPassword (b.newPassword.getD ""))]))
  ∧ (∀ (env : Env) (store : List User) (b : ResetBody) (u : User),
      jtruthy b.email = true → jtruthy b.oldPassword = true → jtruthy b.newPassword = true →
      8 ≤ (b.newPassword.getD "").length →
      env.lookupFails = false →
      findByEmail store (b.email.getD "") = some u →
      (verify u.password (b.oldPassword.getD "") = .rejected →
        resetHandlerTs env store b = ⟨400, store, [.lookup (b.email.getD "")]⟩)
      ∧ (verify u.password (b.oldPassword.getD "") ≠ .rejected →
        (resetHandlerTs env store b).ops =
          [.lookup (b.email.getD ""), .write u.id (hashPassword (b.newPassword.getD ""))]))
  ∧ (∀ (env : Env) (store : List User) (b : ChangeBody) (u : User),
      jtruthy b.email = true → jtruthy b.currentPassword = true → jtruthy b.newPassword = true →
      8 ≤ (b.newPassword.getD "").length →
      env.lookupFails = false →
      findByEmail store (b.email.getD "") = some u →
      (verify u.password (b.currentPassword.getD "") = .rejected →
        changeHandlerTs env store b = ⟨400, store, [.lookup (b.email.getD "")]⟩)
      ∧ (verify u.password (b.currentPassword.getD "") ≠ .rejected →
        (changeHandlerTs env store b).ops =
          [.lookup (b.email.getD ""), .write u.id (hashPassword (b.newPassword.getD ""))])) := by
  refine ⟨verify_eq_acceptedHashed_iff, verify_eq_plain_iff, verify_eq_rejected_iff, ?_, ?_, ?_, ?_⟩
  · intro env store b u he hp hu
    refine ⟨?_, ?_, ?_⟩
    · intro hv
      obtain ⟨h1, h2⟩ := (verify_eq_rejected_iff _ _).mp hv
      simp [loginHandler, he, hp, hu, h1, h2]
    · intro hv
      have h1 := (verify_eq_acceptedHashed_iff _ _).mp hv
      simp [loginHandler, he, hp, hu, h1]
    · intro hv
      obtain ⟨h1, h2⟩ := (verify_eq_plain_iff _ _).mp hv
      rw [h2] at h1
      by_cases hw : env.writeFails <;>
        simp [loginHandler, he, hp, hu, h1, h2, hw]
  · intro env store b u he ho hn hu
    constructor
    · intro hv
      obtain ⟨h1, h2⟩ := (verify_eq_rejected_iff _ _).mp hv
      simp [resetHandlerSl, he, ho, hn, hu, h1, h2]
    · intro hv
      have hfalse : ¬(u.password ≠ hashPassword (b.oldPassword.getD "") ∧
          u.password ≠ b.oldPassword.getD "") := by
        intro hcon
        exact hv ((verify_eq_rejected_iff _ _).mpr hcon)
      by_cases hw : env.writeFails <;>
        simp [resetHandlerSl, he, ho, hn, hu, hfalse, hw]
  · intro env store b u he ho hn hlen hlf hu
    constructor
    · intro hv
      obtain ⟨h1, h2⟩ := (verify_eq_rejected_iff _ _).mp hv
      simp [resetHandlerTs, he, ho, hn, Nat.not_lt.mpr hlen, hlf, hu, h1, h2]
    · intro hv
      have hfalse : ¬(u.password ≠ hashPassword (b.oldPassword.getD "") ∧
          u.password ≠ b.oldPassword.getD "") := by
        intro hcon
        exact hv ((verify_eq_rejected_iff _ _).mpr hcon)
      by_cases hw : env.writeFails <;>
        simp [resetHandlerTs, he, ho, hn, Nat.not_lt.mpr hlen, hlf, hu, hfalse, hw]
  · intro env store b u he hc hn hlen hlf hu
    constructor
    · intro hv
      obtain ⟨h1, h2⟩ := (verify_eq_rejected_iff _ _).mp hv
      simp [changeHandlerTs, he, hc, hn, Nat.not_lt.mpr hlen, hlf, hu, h1, h2]
    · intro hv
      have hfalse : ¬(u.password ≠ hashPassword (b.currentPassword.getD "") ∧
          u.password ≠ b.currentPassword.getD "") := by
        intro hcon
        exact hv ((verify_eq_rejected_iff _ _).mpr hcon)
      by_cases hw : env.writeFails <;>
        simp [changeHandlerTs, he, hc, hn, Nat.not_lt.mpr hlen, hlf, hu, hfalse, hw]

/-- Witness for C1: on the legacy plain-text row, presenting the matching
password logs in with status 200 and triggers the upgrade write of the
hex digest. -/
theorem c1_witness :
    (loginHandler ⟨false, false⟩ samplePlainStore sampleLoginBody).status = 200 ∧
    (loginHandler ⟨false, false⟩ samplePlainStore sampleLoginBody).ops =
      [.lookup "test@example.com", .write 1 (hashPassword "oldpassword123")] :=
  (c1_hashed_comparison_first.2.2.2.1 ⟨false, false⟩ samplePlainStore sampleLoginBody
    ⟨1, "test@example.com", "oldpassword123", "tester"⟩
    (by decide) (by decide) (by decide)).2.2 (by decide)

/-- C2 counterexample: with a failing lookup call, the part_001 reset
handler answers 404 (its getUserByEmail catches the error and returns
null), not the 500 the claim requires for every lookup failure. -/
theorem c2_counterexample :
    (resetHandlerSl ⟨true, false⟩ samplePlainStore sampleResetBody).status = 404 ∧
    (resetHandlerSl ⟨true, false⟩ samplePlainStore sampleResetBody).status ≠ 500 := by
  decide

/-- C2 (amended): write failures outside the opportunistic migration are
surfaced as 500 (part_001 and index.ts), the migration write-back failure
in the login handler is swallowed (the request succeeds with the record
left in plain text), and lookup failures are surfaced as 500 only by the
index.ts handlers — the serverless handlers catch them inside
getUserByEmail and report not-found (404 reset / 401 login) instead. -/
theorem c2_amended_storage_failures :
    (∀ (env : Env) (store : List User) (b : ResetBody),
      env.lookupFails = true →
      jtruthy b.email = true → jtruthy b.oldPassword = true → jtruthy b.newPassword = true →
      8 ≤ (b.newPassword.getD "").length →
      (resetHandlerTs env store b).status = 500)
  ∧ (∀ (env : Env) (store : List User) (b : ResetBody) (u : User),
      env.lookupFails = false → env.writeFails = true →
      jtruthy b.email = true → jtruthy b.oldPassword = true → jtruthy b.newPassword = true →
      findByEmail store (b.email.getD "") = some u →
      verify u.password (b.oldPassword.getD "") ≠ .rejected →
      (resetHandlerSl env store b).status = 500)
  ∧ (∀ (env : Env) (store : List User) (b : ResetBody) (u : User),
      env.lookupFails = false → env.writeFails = true →
      jtruthy b.email = true → jtruthy b.oldPassword = true → jtruthy b.newPassword = true →
      8 ≤ (b.newPassword.getD "").length →
      findByEmail store (b.email.getD "") = some u →
      verify u.password (b.oldPassword.getD "") ≠ .rejected →
      (resetHandlerTs env store b).status = 500)
  ∧ (∀ (env : Env) (store : List User) (b : LoginBody) (u : User),
      env.lookupFails = false → env.writeFails = true →
      jtruthy b.email = true → jtruthy b.password = true →
      findByEmail store (b.email.getD "") = some u →
      verify u.password (b.password.getD "") = .acceptedPlaintextNeedsUpgrade →
      (loginHandler env store b).status = 200 ∧ (loginHandler env store b).store = store)
  ∧ (∀ (env : Env) (store : List User) (b : ResetBody),
      env.lookupFails = true →
      jtruthy b.email = true → jtruthy b.oldPassword = true → jtruthy b.newPassword = true →
      (resetHandlerSl env store b).status = 404)
  ∧ (∀ (env : Env) (store : List User) (b : LoginBody),
      env.lookupFails = true →
      jtruthy b.email = true → jtruthy b.password = true →
      (loginHandler env store b).status = 401) := by
  refine ⟨?_, ?_, ?_, ?_, ?_, ?_⟩
  · intro env store b hlf he ho hn hlen
    simp [resetHandlerTs, he, ho, hn, Nat.not_lt.mpr hlen, hlf]
  · intro env store b u hlf hw he ho hn hu hv
    have hfalse : ¬(u.password ≠ hashPassword (b.oldPassword.getD "") ∧
        u.password ≠ b.oldPassword.getD "") := by
      intro hcon
      exact hv ((verify_eq_rejected_iff _ _).mpr hcon)
    simp [resetHandlerSl, getUserByEmailSl, hlf, hw, he, ho, hn, hu, hfalse]
  · intro env store b u hlf hw he ho hn hlen hu hv
    have hfalse : ¬(u.password ≠ hashPassword (b.oldPassword.getD "") ∧
        u.password ≠ b.oldPassword.getD "") := by
      intro hcon
      exact hv ((verify_eq_rejected_iff _ _).mpr hcon)
    simp [resetHandlerTs, hlf, hw, he, ho, hn, Nat.not_lt.mpr hlen, hu, hfalse]
  · intro env store b u hlf hw he hp hu hv
    obtain ⟨h1, h2⟩ := (verify_eq_plain_iff _ _).mp hv
    rw [h2] at h1
    simp [loginHandler, getUserByEmailSl, hlf, hw, he, hp, hu, h1, h2]
  · intro env store b hlf he ho hn
    simp [resetHandlerSl, getUserByEmailSl, hlf, he, ho, hn]
  · intro env store b hlf he hp
    simp [loginHandler, getUserByEmailSl, hlf, he, hp]

/-- Witness for C2 (amended): on the plain-text row, a login whose
migration write-back fails still answers 200 and leaves the store (and so
the plain-text record) unchanged. -/
theorem c2_witness :
    (loginHandler ⟨false, true⟩ samplePlainStore sampleLoginBody).status = 200 ∧
    (loginHandler ⟨false, true⟩ samplePlainStore sampleLoginBody).store = samplePlainStore :=
  c2_amended_storage_failures.2.2.2.1 ⟨false, true⟩ samplePlainStore sampleLoginBody
    ⟨1, "test@example.com", "oldpassword123", "tester"⟩
    (by decide) (by decide) (by decide) (by decide) (by decide) (by decide)

/-- C3: on either accepted verification outcome the reset/change handlers
attempt the write of the hex digest of the new password, a plaintext
login match attempts the write of the digest of the presented password,
and when the write call succeeds the store afterwards holds that digest
in the user's row — so a plaintext-stored credential is rewritten to its
hashed form by the first successful verification. -/
theorem c3_accepted_outcome_writes_digest :
    (∀ (env : Env) (store : List User) (b : ResetBody) (u : User),
      jtruthy b.email = true → jtruthy b.oldPassword = true → jtruthy b.newPassword = true →
      getUserByEmailSl env store (b.email.getD "") = some u →
      verify u.password (b.oldPassword.getD "") ≠ .rejected →
      (resetHandlerSl env store b).ops =
        [.lookup (b.email.getD ""), .write u.id (hashPassword (b.newPassword.getD ""))] ∧
      (env.writeFails = false →
        (resetHandlerSl env store b).store =
          writeRow store u.id (hashPassword (b.newPassword.getD ""))))
  ∧ (∀ (env : Env) (store : List User) (b : ResetBody) (u : User),
      jtruthy b.email = true → jtruthy b.oldPassword = true → jtruthy b.newPassword = true →
      8 ≤ (b.newPassword.getD "").length →
      env.lookupFails = false →
      findByEmail store (b.email.getD "") = some u →
      verify u.password (b.oldPassword.getD "") ≠ .rejected →
      (resetHandlerTs env store b).ops =
        [.lookup (b.email.getD ""), .write u.id (hashPassword (b.newPassword.getD ""))] ∧
      (env.writeFails = false →
        (resetHandlerTs env store b).store =
          writeRow store u.id (hashPassword (b.newPassword.getD ""))))
  ∧ (∀ (env : Env) (store : List User) (b : ChangeBody) (u : User),
      jtruthy b.email = true → jtruthy b.currentPassword = true → jtruthy b.newPassword = true →
      8 ≤ (b.newPassword.getD "").length →
      env.lookupFails = false →
      findByEmail store (b.email.getD "") = some u →
      verify u.password (b.currentPassword.getD "") ≠ .rejected →
      (changeHandlerTs env store b).ops =
        [.lookup (b.email.getD ""), .write u.id (hashPassword (b.newPassword.getD ""))] ∧
      (env.writeFails = false →
        (changeHandlerTs env store b).store =
          writeRow store u.id (hashPassword (b.newPassword.getD ""))))
  ∧ (∀ (env : Env) (store : List User) (b : LoginBody) (u : User),
      jtruthy b.email = true → jtruthy b.password = true →
      getUserByEmailSl env store (b.email.getD "") = some u →
      verify u.password (b.password.getD "") = .acceptedPlaintextNeedsUpgrade →
      (loginHandler env store b).ops =
        [.lookup (b.email.getD ""), .write u.id (hashPassword (b.password.getD ""))] ∧
      (env.writeFails = false →
        (loginHandler env store b).store =
          writeRow store u.id (hashPassword (b.password.getD ""))))
  ∧ (∀ (store : List User) (rid : Nat) (v : String) (u : User),
      u ∈ writeRow store rid v → u.id = rid → u.password = v) := by
  refine ⟨?_, ?_, ?_, ?_, fun store rid v u hu hid => writeRow_password store rid v u hu hid⟩
  · intro env store b u he ho hn hu hv
    have hfalse : ¬(u.password ≠ hashPassword (b.oldPassword.getD "") ∧
        u.password ≠ b.oldPassword.getD "") := by
      intro hcon
      exact hv ((verify_eq_rejected_iff _ _).mpr hcon)
    by_cases hw : env.writeFails <;>
      simp [resetHandlerSl, he, ho, hn, hu, hfalse, hw]
  · intro env store b u he ho hn hlen hlf hu hv
    have hfalse : ¬(u.password ≠ hashPassword (b.oldPassword.getD "") ∧
        u.password ≠ b.oldPassword.getD "") := by
      intro hcon
      exact hv ((verify_eq_rejected_iff _ _).mpr hcon)
    by_cases hw : env.writeFails <;>
      simp [resetHandlerTs, he, ho, hn, Nat.not_lt.mpr hlen, hlf, hu, hfalse, hw]
  · intro env store b u he hc hn hlen hlf hu hv
    have hfalse : ¬(u.password ≠ hashPassword (b.currentPassword.getD "") ∧
        u.password ≠ b.currentPassword.getD "") := by
      intro hcon
      exact hv ((verify_eq_rejected_iff _ _).mpr hcon)
    by_cases hw : env.writeFails <;>
      simp [changeHandlerTs, he, hc, hn, Nat.not_lt.mpr hlen, hlf, hu, hfalse, hw]
  · intro env store b u he hp hu hv
    obtain ⟨h1, h2⟩ := (verify_eq_plain_iff _ _).mp hv
    rw [h2] at h1
    by_cases hw : env.writeFails <;>
      simp [loginHandler, he, hp, hu, h1, h2, hw]

/-- Witness for C3: resetting on the plain-text row writes the hex digest
of the new password into the row. -/
theorem c3_witness :
    (resetHandlerSl ⟨false, false⟩ samplePlainStore sampleResetBody).ops =
      [.lookup "test@example.com", .write 1 (hashPassword "newpassword123")] ∧
    (resetHandlerSl ⟨false, false⟩ samplePlainStore sampleResetBody).store =
      writeRow samplePlainStore 1 (hashPassword "newpassword123") := by
  have h := c3_accepted_outcome_writes_digest.1 ⟨false, false⟩ samplePlainStore sampleResetBody
    ⟨1, "test@example.com", "oldpassword123", "tester"⟩
    (by decide) (by decide) (by decide) (by decide) (by decide)
  exact ⟨h.1, h.2 rfl⟩

/-- C4 counterexample: the part_001 reset handler does not check the new
password's length — with a 7-character new password it still performs the
store lookup and answers 200, where the claim requires a 400 with no
store call. -/
theorem c4_counterexample :
    (resetHandlerSl ⟨false, false⟩ samplePlainStore shortResetBody).status = 200 ∧
    StoreOp.lookup "test@example.com" ∈
      (resetHandlerSl ⟨false, false⟩ samplePlainStore shortResetBody).ops := by
  decide

/-- C4 (amended): the index.ts reset/change handlers and the server.js
reset/change handlers reject a request with a missing field or a new
password shorter than 8 characters with a 400 before any store call; the
serverless reset handler of part_001 rejects missing fields with a 400
before any store call but performs no length check, so a short new
password proceeds to the lookup (see the counterexample). -/
theorem c4_amended_validation :
    (∀ (env : Env) (store : List User) (b : ResetBody),
      (¬(jtruthy b.email = true ∧ jtruthy b.oldPassword = true ∧ jtruthy b.newPassword = true)
        ∨ (b.newPassword.getD "").length < 8) →
      resetHandlerTs env store b = ⟨400, store, []⟩)
  ∧ (∀ (env : Env) (store : List User) (b : ChangeBody),
      (¬(jtruthy b.email = true ∧ jtruthy b.currentPassword = true ∧ jtruthy b.newPassword = true)
        ∨ (b.newPassword.getD "").length < 8) →
      changeHandlerTs env store b = ⟨400, store, []⟩)
  ∧ (∀ (store : List User) (b : ResetBody),
      (¬(jtruthy b.email = true ∧ jtruthy b.oldPassword = true ∧ jtruthy b.newPassword = true)
        ∨ (b.newPassword.getD "").length < 8) →
      (resetHandlerSrv store b).status = 400 ∧ (resetHandlerSrv store b).ops = [])
  ∧ (∀ (store : List User) (b : ChangeBody),
      (¬(jtruthy b.email = true ∧ jtruthy b.currentPassword = true ∧ jtruthy b.newPassword = true)
        ∨ (b.newPassword.getD "").length < 8) →
      (changeHandlerSrv store b).status = 400 ∧ (changeHandlerSrv store b).ops = [])
  ∧ (∀ (env : Env) (store : List User) (b : ResetBody),
      ¬(jtruthy b.email = true ∧ jtruthy b.oldPassword = true ∧ jtruthy b.newPassword = true) →
      resetHandlerSl env store b = ⟨400, store, []⟩) := by
  refine ⟨?_, ?_, ?_, ?_, ?_⟩
  · intro env store b h
    cases hb : (jtruthy b.email && jtruthy b.oldPassword && jtruthy b.newPassword) with
    | false => simp [resetHandlerTs, hb]
    | true =>
      rcases h with h | h
      · exfalso
        apply h
        simpa [Bool.and_eq_true, and_assoc] using hb
      · simp [resetHandlerTs, hb, h]
  · intro env store b h
    cases hb : (jtruthy b.email && jtruthy b.currentPassword && jtruthy b.newPassword) with
    | false => simp [changeHandlerTs, hb]
    | true =>
      rcases h with h | h
      · exfalso
        apply h
        simpa [Bool.and_eq_true, and_assoc] using hb
      · simp [changeHandlerTs, hb, h]
  · intro store b h
    cases hb : (jtruthy b.email && jtruthy b.oldPassword && jtruthy b.newPassword) with
    | false => simp [resetHandlerSrv, hb]
    | true =>
      rcases h with h | h
      · exfalso
        apply h
        simpa [Bool.and_eq_true, and_assoc] using hb
      · simp [resetHandlerSrv, hb, h]
  · intro store b h
    cases hb : (jtruthy b.email && jtruthy b.currentPassword && jtruthy b.newPassword) with
    | false => simp [changeHandlerSrv, hb]
    | true =>
      rcases h with h | h
      · exfalso
        apply h
        simpa [Bool.and_eq_true, and_assoc] using hb
      · simp [changeHandlerSrv, hb, h]
  · intro env store b h
    cases hb : (jtruthy b.email && jtruthy b.oldPassword && jtruthy b.newPassword) with
    | false => simp [resetHandlerSl, hb]
    | true =>
      exfalso
      apply h
      simpa [Bool.and_eq_true, and_assoc] using hb

/-- Witness for C4 (amended): the index.ts reset handler rejects the
7-character new password with a 400 and an empty store-operation
trace. -/
theorem c4_witness :
    resetHandlerTs ⟨false, false⟩ samplePlainStore shortResetBody =
      ⟨400, samplePlainStore, []⟩ :=
  c4_amended_validation.1 ⟨false, false⟩ samplePlainStore shortResetBody
    (Or.inr (by decide))

/-- C5 counterexample: with an unknown email the index.ts reset handler
answers 400 (`res.status(400).json({ error: "User not found" })`), not
the 404 the claim requires of every reset/change request. -/
theorem c5_counterexample :
    (resetHandlerTs ⟨false, false⟩ [] sampleResetBody).status = 400 ∧
    (resetHandlerTs ⟨false, false⟩ [] sampleResetBody).status ≠ 404 := by
  decide

/-- C5 (amended): on an email matching no stored record no write is ever
attempted and the store is unchanged, but the status differs by handler
family: the serverless handlers (part_001 and reset-password.js) answer
404 while the index.ts reset/change handlers answer 400 with a
"User not found" error body. -/
theorem c5_amended_user_not_found :
    (∀ (env : Env) (store : List User) (b : ResetBody),
      env.lookupFails = false →
      jtruthy b.email = true → jtruthy b.oldPassword = true → jtruthy b.newPassword = true →
      findByEmail store (b.email.getD "") = none →
      resetHandlerSl env store b = ⟨404, store, [.lookup (b.email.getD "")]⟩)
  ∧ (∀ (env : Env) (store : List User) (b : ResetBody),
      env.lookupFails = false →
      jtruthy b.email = true → jtruthy b.newPassword = true →
      findByEmail store (b.email.getD "") = none →
      resetHandlerDec env store b = ⟨404, store, [.lookup (b.email.getD "")]⟩)
  ∧ (∀ (env : Env) (store : List User) (b : ResetBody),
      env.lookupFails = false →
      jtruthy b.email = true → jtruthy b.oldPassword = true → jtruthy b.newPassword = true →
      8 ≤ (b.newPassword.getD "").length →
      findByEmail store (b.email.getD "") = none →
      resetHandlerTs env store b = ⟨400, store, [.lookup (b.email.getD "")]⟩)
  ∧ (∀ (env : Env) (store : List User) (b : ChangeBody),
      env.lookupFails = false →
      jtruthy b.email = true → jtruthy b.currentPassword = true → jtruthy b.newPassword = true →
      8 ≤ (b.newPassword.getD "").length →
      findByEmail store (b.email.getD "") = none →
      changeHandlerTs env store b = ⟨400, store, [.lookup (b.email.getD "")]⟩) := by
  refine ⟨?_, ?_, ?_, ?_⟩
  · intro env store b hlf he ho hn hu
    simp [resetHandlerSl, getUserByEmailSl, hlf, he, ho, hn, hu]
  · intro env store b hlf he hn hu
    simp [resetHandlerDec, getUserByEmailSl, hlf, he, hn, hu]
  · intro env store b hlf he ho hn hlen hu
    simp [resetHandlerTs, hlf, he, ho, hn, Nat.not_lt.mpr hlen, hu]
  · intro env store b hlf he hc hn hlen hu
    simp [changeHandlerTs, hlf, he, hc, hn, Nat.not_lt.mpr hlen, hu]

/-- Witness for C5 (amended): on an empty store the part_001 reset
handler answers 404 after only the lookup. -/
theorem c5_witness :
    resetHandlerSl ⟨false, false⟩ [] sampleResetBody =
      ⟨404, [], [.lookup "test@example.com"]⟩ :=
  c5_amended_user_not_found.1 ⟨false, false⟩ [] sampleResetBody
    (by decide) (by decide) (by decide) (by decide) (by decide)

/-- C6 counterexample: the base-10 call site
(`src/api/auth/reset-password.js`) renders the signed accumulator, not
its absolute value — the digest of "oldpassword123" there is the string
"-478085840", which carries a minus sign. -/
theorem c6_counterexample :
    hashPasswordDec "oldpassword123" = "-478085840" ∧
    '-' ∈ (hashPasswordDec "oldpassword123").data := by
  decide

/-- C6 (amended): the accumulator is reduced to the 32-bit signed range
by wraparound arithmetic; the base-16 call sites render the absolute
value, so their digest strings never carry a minus sign; but the single
base-10 call site renders the signed value directly, so whenever the
accumulator is negative its digest string starts with a minus sign. -/
theorem c6_amended_digest_rendering :
    (∀ s, -2 ^ 31 ≤ hashAcc s ∧ hashAcc s < 2 ^ 31)
  ∧ (∀ s, '-' ∉ (hashPassword s).data)
  ∧ (∀ s, hashAcc s < 0 → ∃ t, hashPasswordDec s = "-" ++ t) :=
  ⟨hashAcc_range, hashPassword_no_minus, hashPasswordDec_neg⟩

/-- Witness for C6 (amended): the accumulator of "oldpassword123" is
negative and its decimal rendering therefore starts with a minus sign,
while its hex rendering contains none. -/
theorem c6_witness :
    (-2 ^ 31 ≤ hashAcc "oldpassword123" ∧ hashAcc "oldpassword123" < 2 ^ 31) ∧
    '-' ∉ (hashPassword "oldpassword123").data ∧
    (∃ t, hashPasswordDec "oldpassword123" = "-" ++ t) :=
  ⟨c6_amended_digest_rendering.1 "oldpassword123",
   c6_amended_digest_rendering.2.1 "oldpassword123",
   c6_amended_digest_rendering.2.2 "oldpassword123" (by decide)⟩

/-- C7: whenever the stored value matches neither the digest of the
presented old password nor the old password itself, verify rejects and
the reset handlers (part_001 and index.ts) answer 400, leave the store
unchanged and attempt no write (their trace is the lookup alone). -/
theorem c7_rejected_no_write :
    (∀ s p, s ≠ hashPassword p → s ≠ p → verify s p = .rejected)
  ∧ (∀ (env : Env) (store : List User) (b : ResetBody) (u : User),
      jtruthy b.email = true → jtruthy b.oldPassword = true → jtruthy b.newPassword = true →
      getUserByEmailSl env store (b.email.getD "") = some u →
      u.password ≠ hashPassword (b.oldPassword.getD "") →
      u.password ≠ b.oldPassword.getD "" →
      resetHandlerSl env store b = ⟨400, store, [.lookup (b.email.getD "")]⟩)
  ∧ (∀ (env : Env) (store : List User) (b : ResetBody) (u : User),
      jtruthy b.email = true → jtruthy b.oldPassword = true → jtruthy b.newPassword = true →
      8 ≤ (b.newPassword.getD "").length →
      env.lookupFails = false →
      findByEmail store (b.email.getD "") = some u →
      u.password ≠ hashPassword (b.oldPassword.getD "") →
      u.password ≠ b.oldPassword.getD "" →
      resetHandlerTs env store b = ⟨400, store, [.lookup (b.email.getD "")]⟩) := by
  refine ⟨?_, ?_, ?_⟩
  · intro s p h1 h2
    exact (verify_eq_rejected_iff _ _).mpr ⟨h1, h2⟩
  · intro env store b u he ho hn hu h1 h2
    simp [resetHandlerSl, he, ho, hn, hu, h1, h2]
  · intro env store b u he ho hn hlen hlf hu h1 h2
    simp [resetHandlerTs, he, ho, hn, Nat.not_lt.mpr hlen, hlf, hu, h1, h2]

/-- Witness for C7: against the hashed row, presenting the wrong old
password "wrong" yields a 400 with no write and the store unchanged. -/
theorem c7_witness :
    resetHandlerSl ⟨false, false⟩ sampleHashedStore wrongResetBody =
      ⟨400, sampleHashedStore, [.lookup "test@example.com"]⟩ :=
  c7_rejected_no_write.2.1 ⟨false, false⟩ sampleHashedStore wrongResetBody
    ⟨1, "test@example.com", hashPassword "oldpassword123", "tester"⟩
    (by decide) (by decide) (by decide) (by decide) (by decide) (by decide)

/-- C8: presenting a password against its own stored digest is always
accepted via the hashed path. -/
theorem c8_verify_own_digest :
    ∀ p, verify (hashPassword p) p = .acceptedHashed := fun p =>
  (verify_eq_acceptedHashed_iff (hashPassword p) p).mpr rfl

/-- C9: the serverless reset handler of `src/api/auth/reset-password.js`
performs no credential verification: for a request with a truthy email
matching a stored record and any truthy new password (no length bound),
it answers 200, its only store operations are the lookup and the write of
the *decimal* digest of the new password, the store afterwards holds that
digest in the user's row, and the result is independent of any
oldPassword field in the body. -/
theorem c9_dec_handler_no_verification :
    ∀ (env : Env) (store : List User) (b : ResetBody) (u : User),
      env.lookupFails = false → env.writeFails = false →
      jtruthy b.email = true → jtruthy b.newPassword = true →
      findByEmail store (b.email.getD "") = some u →
      (resetHandlerDec env store b).status = 200
      ∧ (resetHandlerDec env store b).ops =
          [.lookup (b.email.getD ""), .write u.id (hashPasswordDec (b.newPassword.getD ""))]
      ∧ (resetHandlerDec env store b).store =
          writeRow store u.id (hashPasswordDec (b.newPassword.getD ""))
      ∧ (∀ o, resetHandlerDec env store ⟨b.email, o, b.newPassword⟩ =
          resetHandlerDec env store b) := by
  intro env store b u hlf hw he hn hu
  refine ⟨?_, ?_, ?_, fun o => rfl⟩ <;>
    simp [resetHandlerDec, getUserByEmailSl, hlf, hw, he, hn, hu]

/-- Witness for C9: a one-character new password with no oldPassword
field resets the plain-text row to the decimal digest of "x". -/
theorem c9_witness :
    (resetHandlerDec ⟨false, false⟩ samplePlainStore
      ⟨some "test@example.com", none, some "x"⟩).status = 200 ∧
    (resetHandlerDec ⟨false, false⟩ samplePlainStore
      ⟨some "test@example.com", none, some "x"⟩).ops =
      [.lookup "test@example.com", .write 1 (hashPasswordDec "x")] :=
  ⟨(c9_dec_handler_no_verification ⟨false, false⟩ samplePlainStore
      ⟨some "test@example.com", none, some "x"⟩
      ⟨1, "test@example.com", "oldpassword123", "tester"⟩
      (by decide) (by decide) (by decide) (by decide) (by decide)).1,
   (c9_dec_handler_no_verification ⟨false, false⟩ samplePlainStore
      ⟨some "test@example.com", none, some "x"⟩
      ⟨1, "test@example.com", "oldpassword123", "tester"⟩
      (by decide) (by decide) (by decide) (by decide) (by decide)).2.1⟩

/-- C10: the server.js reset and change handlers never touch a credential
store — their store-operation trace is empty and the store is returned
unchanged — and after validation they succeed exactly for the simulated
user: email "test@example.com" with old/current password
"oldpassword123" and a new password of at least 8 characters. -/
theorem c10_server_js_pure :
    ∀ (store : List User) (b : ResetBody) (c : ChangeBody),
      (resetHandlerSrv store b).store = store ∧ (resetHandlerSrv store b).ops = [] ∧
      ((resetHandlerSrv store b).status = 200 ↔
        b.email = some "test@example.com" ∧ b.oldPassword = some "oldpassword123" ∧
        ∃ np, b.newPassword = some np ∧ 8 ≤ np.length) ∧
      (changeHandlerSrv store c).store = store ∧ (changeHandlerSrv store c).ops = [] ∧
      ((changeHandlerSrv store c).status = 200 ↔
        c.email = some "test@example.com" ∧ c.currentPassword = some "oldpassword123" ∧
        ∃ np, c.newPassword = some np ∧ 8 ≤ np.length) := by
  intro store b c
  refine ⟨?_, ?_, ?_, ?_, ?_, ?_⟩
  · unfold resetHandlerSrv; split_ifs <;> rfl
  · unfold resetHandlerSrv; split_ifs <;> rfl
  · rcases b with ⟨be, bo, bn⟩
    rcases be with _ | se <;> rcases bo with _ | so <;> rcases bn with _ | sn <;>
      simp [resetHandlerSrv, jtruthy]
    by_cases hse : se = ""
    · subst hse
      simp
    · by_cases hso : so = ""
      · subst hso
        simp [hse]
      · by_cases hsn : sn = ""
        · subst hsn
          simp [hse, hso]
        · by_cases hlen : sn.length < 8
          · simp [hse, hso, hsn, hlen]
          · by_cases hcred : se = "test@example.com" ∧ so = "oldpassword123"
            · simp [hse, hso, hsn, hlen, hcred.1, hcred.2]
              omega
            · have hcred2 : ¬(se = "test@example.com" ∧ so = "oldpassword123") := hcred
              simp [hse, hso, hsn, hlen, hcred2]
              intro h1 h2
              exact absurd ⟨h1, h2⟩ hcred2
  · unfold changeHandlerSrv; split_ifs <;> rfl
  · unfold changeHandlerSrv; split_ifs <;> rfl
  · rcases c with ⟨ce, co, cn⟩
    rcases ce with _ | se <;> rcases co with _ | so <;> rcases cn with _ | sn <;>
      simp [changeHandlerSrv, jtruthy]
    by_cases hse : se = ""
    · subst hse
      simp
    · by_cases hso : so = ""
      · subst hso
        simp [hse]
      · by_cases hsn : sn = ""
        · subst hsn
          simp [hse, hso]
        · by_cases hlen : sn.length < 8
          · simp [hse, hso, hsn, hlen]
          · by_cases hcred : se = "test@example.com" ∧ so = "oldpassword123"
            · simp [hse, hso, hsn, hlen, hcred.1, hcred.2]
              omega
            · have hcred2 : ¬(se = "test@example.com" ∧ so = "oldpassword123") := hcred
              simp [hse, hso, hsn, hlen, hcred2]
              intro h1 h2
              exact absurd ⟨h1, h2⟩ hcred2

end Kenno
